import Mathlib

/-!
Verification development for the openedx-user-groups repository.

The definitions below are a shallow embedding of the criteria evaluation and
membership reconciliation engine: `criteria.py`, `criteria_types.py`,
`manager.py`, `models.py`, `api.py` and `tasks.py`.  Timestamps are modelled
as integers (seconds), `timedelta(days=n)` as `n * 86400` seconds, JSON-like
configuration dictionaries as ordered association lists of string keys and
`Value`s (Python dicts preserve insertion order), and Django querysets over
users as lists of `UserRec`.  Fallible Python code (exceptions raised by
validation, assertions, missing fields, `None` results) is modelled with
`Except` / `Option`.
-/

/-- JSON-like value, the payload type of criterion configurations and event
data (`criterion_config` JSONField, event payload dicts).  The only list
values the source's configurations use are lists of strings
(`usernames_or_emails`), so `vlist` carries a `List String`. -/
inductive Value where
  | vstr (s : String)
  | vint (n : Int)
  | vbool (b : Bool)
  | vlist (xs : List String)
  | vnone
deriving DecidableEq, Repr

/-- A Python dict with string keys, in insertion order. -/
abbrev ConfigData := List (String × Value)

/-- Dictionary lookup: the value bound to `k`, if present. -/
def lookupKey (d : ConfigData) (k : String) : Option Value :=
  (d.find? (fun kv => kv.1 = k)).map (fun kv => kv.2)

/-- A row of the `auth_user` table, with the columns the criteria read
(`username`, `email`, `is_staff`, `is_superuser`, `last_login`). -/
structure UserRec where
  id : Nat
  username : String
  email : String
  is_staff : Bool
  is_superuser : Bool
  last_login : Int
deriving DecidableEq, Repr

/-- A course enrollment record, as read by `CourseEnrollmentCriterion`
through `DjangoORMBackendClient.get_enrollments`. -/
structure EnrollmentRec where
  user : Nat
  course_id : String
  mode : String
  created : Int
deriving DecidableEq, Repr

/-- The backend data source the criteria query (`backends.py`). -/
structure Backend where
  users : List UserRec
  enrollments : List EnrollmentRec
deriving Repr

/-- `Scope` model row (`models.py`): `content_type_model` is the Django
`ContentType.model` name of the generic foreign key target. -/
structure ScopeRec where
  id : Nat
  name : String
  description : String
  content_type_model : String
  object_id : String
deriving DecidableEq, Repr

/-- `utils.get_scope_type_from_content_type`: maps a `ContentType.model` name
to a scope type, defaulting to `"instance"`. -/
def get_scope_type_from_content_type (model : String) : String :=
  if model = "courseoverview" then "course"
  else if model = "organization" then "organization"
  else "instance"

/-- `DjangoORMBackendClient.get_users`: all users in the instance, excluding
those that are both staff and superuser
(`User.objects.all().exclude(is_staff=True, is_superuser=True)`); the scope
argument is currently ignored by the source. -/
def get_users (b : Backend) (_scope : ScopeRec) : List UserRec :=
  b.users.filter (fun u => !(u.is_staff && u.is_superuser))

/-- `DjangoORMBackendClient.get_enrollments`: enrollments of the scope's
course (`CourseEnrollment.objects.filter(course_id=scope.object_id)`). -/
def get_enrollments (b : Backend) (scope : ScopeRec) : List EnrollmentRec :=
  b.enrollments.filter (fun e => e.course_id = scope.object_id)

/-- `criteria.ComparisonOperator` enum. -/
inductive ComparisonOperator where
  | EQUAL
  | NOT_EQUAL
  | GREATER_THAN
  | GREATER_THAN_OR_EQUAL
  | LESS_THAN
  | LESS_THAN_OR_EQUAL
  | CONTAINS
  | NOT_CONTAINS
  | IN
  | NOT_IN
  | EXISTS
  | NOT_EXISTS
deriving DecidableEq, Repr

/-- The string value of each `ComparisonOperator` member. -/
def ComparisonOperator.value : ComparisonOperator → String
  | .EQUAL => "="
  | .NOT_EQUAL => "!="
  | .GREATER_THAN => ">"
  | .GREATER_THAN_OR_EQUAL => ">="
  | .LESS_THAN => "<"
  | .LESS_THAN_OR_EQUAL => "<="
  | .CONTAINS => "contains"
  | .NOT_CONTAINS => "not_contains"
  | .IN => "in"
  | .NOT_IN => "not_in"
  | .EXISTS => "exists"
  | .NOT_EXISTS => "not_exists"

/-- `ComparisonOperator(operator)`: parse an operator string, `none` when the
string is not a member value (Python raises `ValueError`). -/
def ComparisonOperator.ofString (s : String) : Option ComparisonOperator :=
  if s = "=" then some .EQUAL
  else if s = "!=" then some .NOT_EQUAL
  else if s = ">" then some .GREATER_THAN
  else if s = ">=" then some .GREATER_THAN_OR_EQUAL
  else if s = "<" then some .LESS_THAN
  else if s = "<=" then some .LESS_THAN_OR_EQUAL
  else if s = "contains" then some .CONTAINS
  else if s = "not_contains" then some .NOT_CONTAINS
  else if s = "in" then some .IN
  else if s = "not_in" then some .NOT_IN
  else if s = "exists" then some .EXISTS
  else if s = "not_exists" then some .NOT_EXISTS
  else none

/-- The concrete criterion classes of `criteria_types.py`. -/
inductive CriterionClass where
  | ManualCriterion
  | CourseEnrollmentCriterion
  | LastLoginCriterion
  | EnrollmentModeCriterion
  | UserStaffStatusCriterion
deriving DecidableEq, Repr

/-- The `criterion_type` class attribute of each concrete class. -/
def CriterionClass.criterion_type : CriterionClass → String
  | .ManualCriterion => "manual"
  | .CourseEnrollmentCriterion => "course_enrollment"
  | .LastLoginCriterion => "last_login"
  | .EnrollmentModeCriterion => "enrollment_mode"
  | .UserStaffStatusCriterion => "user_staff_status"

/-- The `scopes` class attribute: `CourseEnrollmentCriterion` and
`EnrollmentModeCriterion` override the base default of all three scope
types. -/
def CriterionClass.scopes : CriterionClass → List String
  | .CourseEnrollmentCriterion => ["course"]
  | .EnrollmentModeCriterion => ["course"]
  | _ => ["course", "organization", "instance"]

/-- The `supported_operators` class attribute; `none` models the base-class
value `None` (`UserStaffStatusCriterion` does not override it, so its
operator check in `validate_operator` is skipped). -/
def CriterionClass.supported_operators :
    CriterionClass → Option (List ComparisonOperator)
  | .ManualCriterion => some [.IN, .NOT_IN]
  | .CourseEnrollmentCriterion =>
      some [.IN, .NOT_IN, .EQUAL, .NOT_EQUAL, .GREATER_THAN,
            .GREATER_THAN_OR_EQUAL, .LESS_THAN, .LESS_THAN_OR_EQUAL]
  | .LastLoginCriterion =>
      some [.EQUAL, .NOT_EQUAL, .GREATER_THAN, .GREATER_THAN_OR_EQUAL,
            .LESS_THAN, .LESS_THAN_OR_EQUAL]
  | .EnrollmentModeCriterion => some [.EQUAL, .NOT_EQUAL]
  | .UserStaffStatusCriterion => none

/-- `CriterionManager._criterion_registry` (`manager.py`). -/
def criterion_registry : List (String × String) :=
  [("last_login", "openedx_user_groups.criteria_types:LastLoginCriterion"),
   ("course_enrollment",
    "openedx_user_groups.criteria_types:CourseEnrollmentCriterion"),
   ("manual", "openedx_user_groups.criteria_types:ManualCriterion"),
   ("enrollment_mode",
    "openedx_user_groups.criteria_types:EnrollmentModeCriterion"),
   ("enrolled_with_specific_mode",
    "openedx_user_groups.criteria_types:EnrollmentModeCriterion"),
   ("user_staff_status",
    "openedx_user_groups.criteria_types:UserStaffStatusCriterion")]

/-- `CriterionManager.get_criterion_type_by_type`: the registered module path
for a name, or the fallback string `"Unknown_" + name`. -/
def get_criterion_type_by_type (criterion_type : String) : String :=
  ((criterion_registry.find? (fun kv => kv.1 = criterion_type)).map
      (fun kv => kv.2)).getD ("Unknown_" ++ criterion_type)

/-- The class a registered module path imports to (`__import__` +
`getattr` in `get_criterion_class_by_type`). -/
def class_of_module_path (p : String) : Option CriterionClass :=
  if p = "openedx_user_groups.criteria_types:LastLoginCriterion" then
    some .LastLoginCriterion
  else if p = "openedx_user_groups.criteria_types:CourseEnrollmentCriterion" then
    some .CourseEnrollmentCriterion
  else if p = "openedx_user_groups.criteria_types:ManualCriterion" then
    some .ManualCriterion
  else if p = "openedx_user_groups.criteria_types:EnrollmentModeCriterion" then
    some .EnrollmentModeCriterion
  else if p = "openedx_user_groups.criteria_types:UserStaffStatusCriterion" then
    some .UserStaffStatusCriterion
  else none

/-- Python `str.startswith`: prefix test on the character sequence. -/
def str_startswith (s pre : String) : Bool :=
  pre.data.isPrefixOf s.data

/-- `CriterionManager.get_criterion_class_by_type`: resolve a criterion type
name to its class; for an unregistered name the module path starts with
`"Unknown_"` and the function returns `None`. -/
def get_criterion_class_by_type (criterion_type : String) :
    Option CriterionClass :=
  let module_path := get_criterion_type_by_type criterion_type
  if str_startswith module_path "Unknown_" then none
  else class_of_module_path module_path

/-- `ManualCriterion.ConfigModel`: `usernames_or_emails: List[str]` with
`min_length=1`. -/
structure ManualConfig where
  usernames_or_emails : List String
deriving DecidableEq, Repr

/-- Pydantic validation of `ManualConfig`: the field is required, must be a
list of strings, and must have at least one item. -/
def ManualConfig.validate (d : ConfigData) : Option ManualConfig :=
  match lookupKey d "usernames_or_emails" with
  | some (.vlist xs) => if 1 ≤ xs.length then some ⟨xs⟩ else none
  | _ => none

/-- `model_dump` of `ManualConfig`. -/
def ManualConfig.model_dump (c : ManualConfig) : ConfigData :=
  [("usernames_or_emails", .vlist c.usernames_or_emails)]

/-- `LastLoginCriterion.ConfigModel`: `days: int` with `ge=0`. -/
structure LastLoginConfig where
  days : Int
deriving DecidableEq, Repr

/-- Pydantic validation of `LastLoginConfig`: `days` is required, an integer,
and at least 0. -/
def LastLoginConfig.validate (d : ConfigData) : Option LastLoginConfig :=
  match lookupKey d "days" with
  | some (.vint n) => if 0 ≤ n then some ⟨n⟩ else none
  | _ => none

/-- `model_dump` of `LastLoginConfig`. -/
def LastLoginConfig.model_dump (c : LastLoginConfig) : ConfigData :=
  [("days", .vint c.days)]

/-- `CourseEnrollmentCriterion.ConfigModel`: `mode: Optional[str] = None`,
`enrollment_date: Optional[datetime] = None` (datetimes are integer
timestamps in this embedding). -/
structure CourseEnrollmentConfig where
  mode : Option String
  enrollment_date : Option Int
deriving DecidableEq, Repr

/-- Pydantic validation of `CourseEnrollmentConfig`: both fields are optional
with default `None`; a present field must be a string / integer timestamp or
`null`. -/
def CourseEnrollmentConfig.validate (d : ConfigData) :
    Option CourseEnrollmentConfig :=
  match lookupKey d "mode" with
  | some (.vstr s) => checkDate (some s)
  | some .vnone => checkDate none
  | none => checkDate none
  | some _ => none
where
  checkDate (m : Option String) : Option CourseEnrollmentConfig :=
    match lookupKey d "enrollment_date" with
    | some (.vint t) => some ⟨m, some t⟩
    | some .vnone => some ⟨m, none⟩
    | none => some ⟨m, none⟩
    | some _ => none

/-- `model_dump` of `CourseEnrollmentConfig` (pydantic includes `None` fields
as `null`). -/
def CourseEnrollmentConfig.model_dump (c : CourseEnrollmentConfig) :
    ConfigData :=
  [("mode", match c.mode with | some s => .vstr s | none => .vnone),
   ("enrollment_date",
    match c.enrollment_date with | some t => .vint t | none => .vnone)]

/-- `EnrollmentModeCriterion.ConfigModel`: `mode: str` required. -/
structure EnrollmentModeConfig where
  mode : String
deriving DecidableEq, Repr

/-- Pydantic validation of `EnrollmentModeConfig`. -/
def EnrollmentModeConfig.validate (d : ConfigData) :
    Option EnrollmentModeConfig :=
  match lookupKey d "mode" with
  | some (.vstr s) => some ⟨s⟩
  | _ => none

/-- `model_dump` of `EnrollmentModeConfig`. -/
def EnrollmentModeConfig.model_dump (c : EnrollmentModeConfig) : ConfigData :=
  [("mode", .vstr c.mode)]

/-- `UserStaffStatusCriterion.ConfigModel`: `is_staff: bool` required. -/
structure UserStaffStatusConfig where
  is_staff : Bool
deriving DecidableEq, Repr

/-- Pydantic validation of `UserStaffStatusConfig`. -/
def UserStaffStatusConfig.validate (d : ConfigData) :
    Option UserStaffStatusConfig :=
  match lookupKey d "is_staff" with
  | some (.vbool b) => some ⟨b⟩
  | _ => none

/-- `model_dump` of `UserStaffStatusConfig`. -/
def UserStaffStatusConfig.model_dump (c : UserStaffStatusConfig) :
    ConfigData :=
  [("is_staff", .vbool c.is_staff)]

/-- Exceptions the embedded code can raise. -/
inductive CritError where
  | ValidationError (criterion_type : String)
  | UnknownOperator (op : String)
  | UnsupportedOperator (op : String) (criterion_type : String)
  | ScopeAssertionError (criterion_type : String) (scope_type : String)
  | TypeErr (msg : String)
  | FieldError (field : String)
  | ValueError (msg : String)
  | DoesNotExist
deriving DecidableEq, Repr

/-- A constructed (validated) criterion instance: the class, its validated
operator and configuration, and the bound scope — the state
`BaseCriterionType.__init__` leaves on `self`. -/
inductive CriterionInstance where
  | manual (op : ComparisonOperator) (cfg : ManualConfig) (scope : ScopeRec)
  | course_enrollment (op : ComparisonOperator) (cfg : CourseEnrollmentConfig)
      (scope : ScopeRec)
  | last_login (op : ComparisonOperator) (cfg : LastLoginConfig)
      (scope : ScopeRec)
  | enrollment_mode (op : ComparisonOperator) (cfg : EnrollmentModeConfig)
      (scope : ScopeRec)
  | user_staff_status (op : ComparisonOperator) (cfg : UserStaffStatusConfig)
      (scope : ScopeRec)
deriving DecidableEq, Repr

/-- `BaseCriterionType.validate_operator`: parse the operator string (raising
for unrecognized strings), then check membership in the class's
`supported_operators` unless that attribute is falsy (`None` or empty). -/
def validate_operator (cls : CriterionClass) (op : String) :
    Except CritError ComparisonOperator :=
  match ComparisonOperator.ofString op with
  | none => .error (.UnknownOperator op)
  | some o =>
    match cls.supported_operators with
    | none => .ok o
    | some ops =>
      if ops = [] then .ok o
      else if o ∈ ops then .ok o
      else .error (.UnsupportedOperator op cls.criterion_type)

/-- The scope-compatibility assertion of `BaseCriterionType.__init__`:
`assert scope_type in self.scopes`. -/
def check_scope (cls : CriterionClass) (scope : ScopeRec) :
    Except CritError Unit :=
  let scope_type := get_scope_type_from_content_type scope.content_type_model
  if scope_type ∈ cls.scopes then .ok ()
  else .error (.ScopeAssertionError cls.criterion_type scope_type)

/-- `BaseCriterionType.__init__` for each concrete class: validate the raw
configuration against the class's pydantic model, validate the operator,
assert scope compatibility, and return the bound instance (in the source's
order: config, then operator, then scope). -/
def createInstance (cls : CriterionClass) (op : String) (config : ConfigData)
    (scope : ScopeRec) : Except CritError CriterionInstance :=
  match cls with
  | .ManualCriterion =>
    match ManualConfig.validate config with
    | none => .error (.ValidationError "manual")
    | some cfg =>
      match validate_operator .ManualCriterion op with
      | .error e => .error e
      | .ok o =>
        match check_scope .ManualCriterion scope with
        | .error e => .error e
        | .ok _ => .ok (.manual o cfg scope)
  | .CourseEnrollmentCriterion =>
    match CourseEnrollmentConfig.validate config with
    | none => .error (.ValidationError "course_enrollment")
    | some cfg =>
      match validate_operator .CourseEnrollmentCriterion op with
      | .error e => .error e
      | .ok o =>
        match check_scope .CourseEnrollmentCriterion scope with
        | .error e => .error e
        | .ok _ => .ok (.course_enrollment o cfg scope)
  | .LastLoginCriterion =>
    match LastLoginConfig.validate config with
    | none => .error (.ValidationError "last_login")
    | some cfg =>
      match validate_operator .LastLoginCriterion op with
      | .error e => .error e
      | .ok o =>
        match check_scope .LastLoginCriterion scope with
        | .error e => .error e
        | .ok _ => .ok (.last_login o cfg scope)
  | .EnrollmentModeCriterion =>
    match EnrollmentModeConfig.validate config with
    | none => .error (.ValidationError "enrollment_mode")
    | some cfg =>
      match validate_operator .EnrollmentModeCriterion op with
      | .error e => .error e
      | .ok o =>
        match check_scope .EnrollmentModeCriterion scope with
        | .error e => .error e
        | .ok _ => .ok (.enrollment_mode o cfg scope)
  | .UserStaffStatusCriterion =>
    match UserStaffStatusConfig.validate config with
    | none => .error (.ValidationError "user_staff_status")
    | some cfg =>
      match validate_operator .UserStaffStatusCriterion op with
      | .error e => .error e
      | .ok o =>
        match check_scope .UserStaffStatusCriterion scope with
        | .error e => .error e
        | .ok _ => .ok (.user_staff_status o cfg scope)

/-- The Django lookup `LastLoginCriterion.evaluate` selects for each operator
(`queryset_operator_mapping`); `none` models the `KeyError` a non-mapped
operator would raise. -/
def queryset_operator_mapping (op : ComparisonOperator) : Option String :=
  match op with
  | .EQUAL => some "exact"
  | .NOT_EQUAL => some "exact"
  | .GREATER_THAN => some "lt"
  | .GREATER_THAN_OR_EQUAL => some "lte"
  | .LESS_THAN => some "gt"
  | .LESS_THAN_OR_EQUAL => some "gte"
  | _ => none

/-- Semantics of a Django datetime field lookup against a threshold value. -/
def django_lookup (lookup : String) (field threshold : Int) : Bool :=
  if lookup = "exact" then field = threshold
  else if lookup = "lt" then field < threshold
  else if lookup = "lte" then field ≤ threshold
  else if lookup = "gt" then threshold < field
  else if lookup = "gte" then threshold ≤ field
  else false

/-- `evaluate()` of each concrete criterion class, given the backend data and
the current time `now` (`timezone.now()`).  The result is `none` when the
Python method returns `None` (`EnrollmentModeCriterion.evaluate` has an empty
body) or would raise (`last_login` with an operator outside its mapping);
otherwise `some` of the queryset of matching users. -/
def evaluateInstance (inst : CriterionInstance) (b : Backend) (now : Int) :
    Option (List UserRec) :=
  match inst with
  | .manual _ cfg scope =>
    -- filter(Q(username__in=...) | Q(email__in=...)); the operator is unused.
    some ((get_users b scope).filter
      (fun u => u.username ∈ cfg.usernames_or_emails
        || u.email ∈ cfg.usernames_or_emails))
  | .course_enrollment _ cfg scope =>
    -- Exists() subquery over enrollments of the scope, with truthiness-guarded
    -- mode and created__gte filters; the operator is unused.
    some ((get_users b scope).filter (fun u =>
      (get_enrollments b scope).any (fun e =>
        e.user = u.id
        && (match cfg.mode with
            | some m => if m = "" then true else e.mode = m
            | none => true)
        && (match cfg.enrollment_date with
            | some t => t ≤ e.created
            | none => true))))
  | .last_login op cfg scope =>
    match queryset_operator_mapping op with
    | none => none
    | some lk =>
      let threshold_date := now - cfg.days * 86400
      some ((get_users b scope).filter
        (fun u => django_lookup lk u.last_login threshold_date))
  | .enrollment_mode _ _ _ => none
  | .user_staff_status _ cfg scope =>
    some ((get_users b scope).filter (fun u => u.is_staff = cfg.is_staff))

/-- `BaseCriterionType.serialize`: the `(criterion_type, criterion_operator,
criterion_config.model_dump())` triple. -/
def CriterionInstance.serialize (inst : CriterionInstance) :
    String × String × ConfigData :=
  match inst with
  | .manual op cfg _ => ("manual", op.value, cfg.model_dump)
  | .course_enrollment op cfg _ =>
      ("course_enrollment", op.value, cfg.model_dump)
  | .last_login op cfg _ => ("last_login", op.value, cfg.model_dump)
  | .enrollment_mode op cfg _ => ("enrollment_mode", op.value, cfg.model_dump)
  | .user_staff_status op cfg _ =>
      ("user_staff_status", op.value, cfg.model_dump)

/-- `Criterion` model row (`models.py`). -/
structure CriterionRec where
  id : Nat
  criterion_type : String
  criterion_operator : String
  criterion_config : ConfigData
  user_group : Nat
deriving DecidableEq, Repr

/-- `Criterion.criterion_instance` (`models.py`): resolve the class through
the manager and call it with the stored operator, configuration and the
owning group's scope; when resolution yields `None`, calling it raises a
`TypeError`. -/
def criterion_instance (c : CriterionRec) (scope : ScopeRec) :
    Except CritError CriterionInstance :=
  match get_criterion_class_by_type c.criterion_type with
  | none => .error (.TypeErr "NoneType object is not callable")
  | some cls => createInstance cls c.criterion_operator c.criterion_config scope

/-- Reconstruction of a criterion from a serialized triple, as
`Criterion.criterion_instance` does for a stored row. -/
def reconstructInstance (tr : String × String × ConfigData)
    (scope : ScopeRec) : Except CritError CriterionInstance :=
  criterion_instance ⟨0, tr.1, tr.2.1, tr.2.2, 0⟩ scope

/-- `tasks.check_if_membership_state_changed`: iterate the stored
configuration's key/value pairs in order; return `False` at the first key
absent from the event payload, `True` at the first key whose payload value
differs, and `False` when every key is present and equal. -/
def check_if_membership_state_changed (event_data : ConfigData)
    (criterion_config : ConfigData) : Bool :=
  match criterion_config with
  | [] => false
  | (key, value) :: rest =>
    match lookupKey event_data key with
    | none => false
    | some w =>
      if w ≠ value then true
      else check_if_membership_state_changed event_data rest

/-- `UserGroup` model row: `pk` is `none` for an unsaved instance. -/
structure UserGroupRec where
  pk : Option Nat
  name : String
  description : String
  last_membership_change : Int
  enabled : Bool
  scope : Nat
deriving DecidableEq, Repr

/-- `UserGroupMembership` model row. -/
structure MembershipRec where
  user : Nat
  group : Nat
  joined_at : Int
  left_at : Option Int
  is_active : Bool
deriving DecidableEq, Repr

/-- `GroupCollection` model row, with its many-to-many group ids. -/
structure GroupCollectionRec where
  id : Nat
  name : String
  description : String
  user_groups : List Nat
deriving DecidableEq, Repr

/-- The persistent state the engine reads and writes. -/
structure DB where
  scopes : List ScopeRec
  groups : List UserGroupRec
  criteria : List CriterionRec
  memberships : List MembershipRec
  collections : List GroupCollectionRec
deriving DecidableEq, Repr

/-- `api.get_group_by_id` without the raising behavior:
`UserGroup.objects.get(id=group_id)`. -/
def get_group_by_id (db : DB) (gid : Nat) : Option UserGroupRec :=
  db.groups.find? (fun g => g.pk = some gid)

/-- Lexicographic order on character sequences (by code point), the text
collation `ORDER BY` uses. -/
def charListLe : List Char → List Char → Bool
  | [], _ => true
  | _ :: _, [] => false
  | a :: as, b :: bs =>
    if a.toNat < b.toNat then true
    else if b.toNat < a.toNat then false
    else charListLe as bs

/-- String comparison for the `ORDER BY criterion_type` model. -/
def strLe (a b : String) : Bool := charListLe a.data b.data

/-- Ordered insertion for the `ORDER BY criterion_type` model. -/
def insertByType (c : CriterionRec) : List CriterionRec → List CriterionRec
  | [] => [c]
  | d :: rest =>
    if strLe c.criterion_type d.criterion_type then c :: d :: rest
    else d :: insertByType c rest

/-- Stable sort by `criterion_type` (insertion sort). -/
def sortByType : List CriterionRec → List CriterionRec
  | [] => []
  | c :: rest => insertByType c (sortByType rest)

/-- `user_group.criteria.all()`: the group's criteria, in the model's
`Meta.ordering = ["criterion_type"]` order. -/
def sorted_group_criteria (db : DB) (gid : Nat) : List CriterionRec :=
  sortByType (db.criteria.filter (fun c => c.user_group = gid))

/-- The per-criterion evaluation loop of
`api.evaluate_and_update_membership_for_group`: instantiate and evaluate each
criterion in order, collecting the result querysets.  A `None` evaluate
result is an error here: in the source it is appended to `criteria_results`
and then raises (`AttributeError`/`TypeError`) at the intersection or
iteration step, before any membership is written. -/
def criteriaResults (b : Backend) (now : Int) (scope : ScopeRec) :
    List CriterionRec → Except CritError (List (List UserRec))
  | [] => .ok []
  | c :: rest =>
    match criterion_instance c scope with
    | .error e => .error e
    | .ok inst =>
      match evaluateInstance inst b now with
      | none => .error (.TypeErr "cannot intersect or iterate a None result")
      | some us =>
        match criteriaResults b now scope rest with
        | .error e => .error e
        | .ok rs => .ok (us :: rs)

/-- The reducer of `api.evaluate_and_update_membership_for_group`: start from
the first result and intersect with each subsequent one; an empty list of
criteria yields the empty queryset (`User.objects.none()`). -/
def combineResults (rs : List (List UserRec)) : List UserRec :=
  match rs with
  | [] => []
  | r :: rest => rest.foldl (fun acc s => acc.inter s) r

/-- `api.evaluate_and_update_membership_for_group`: evaluate all criteria of
the group, reduce by intersection, delete the group's membership rows, bulk
create new ones with a fresh `joined_at`, and refresh the group's
`last_membership_change`.  Runs in a transaction: an error leaves the
database unchanged (the caller keeps `db`). -/
def evaluate_and_update_membership_for_group (db : DB) (b : Backend)
    (now : Int) (gid : Nat) : Except CritError DB :=
  match get_group_by_id db gid with
  | none => .error .DoesNotExist
  | some g =>
    match db.scopes.find? (fun s => s.id = g.scope) with
    | none => .error .DoesNotExist
    | some scope =>
      match criteriaResults b now scope (sorted_group_criteria db gid) with
      | .error e => .error e
      | .ok rs =>
        let users := combineResults rs
        .ok { db with
          memberships := db.memberships.filter (fun m => m.group ≠ gid)
            ++ users.map (fun u => ⟨u.id, gid, now, none, true⟩),
          groups := db.groups.map (fun gr =>
            if gr.pk = some gid then { gr with last_membership_change := now }
            else gr) }

/-- `api.evaluate_and_update_membership_for_multiple_groups`: evaluate each
group in order inside one transaction. -/
def evaluate_and_update_membership_for_multiple_groups (b : Backend)
    (now : Int) : DB → List Nat → Except CritError DB
  | db, [] => .ok db
  | db, gid :: rest =>
    match evaluate_and_update_membership_for_group db b now gid with
    | .error e => .error e
    | .ok db1 =>
        evaluate_and_update_membership_for_multiple_groups b now db1 rest

/-- The duplicates query of
`api.evaluate_and_update_membership_for_group_collection`: users having
memberships in more than one distinct group of the collection
(`annotate(group_count=Count(..., distinct=True)).filter(group_count__gt=1)`). -/
def duplicate_users (ms : List MembershipRec) (groups : List Nat) :
    List Nat :=
  ((ms.filter (fun m => m.group ∈ groups)).map (fun m => m.user)).dedup.filter
    (fun uid =>
      1 < ((ms.filter (fun m => m.group ∈ groups ∧ m.user = uid)).map
        (fun m => m.group)).dedup.length)

/-- `api.evaluate_and_update_membership_for_group_collection`: re-evaluate
every group of the collection, compute the duplicate users, and if there are
any, delete each duplicate's memberships in the collection's groups; return
the (pre-deletion) duplicates together with the new state. -/
def evaluate_and_update_membership_for_group_collection (db : DB)
    (b : Backend) (now : Int) (cid : Nat) :
    Except CritError (DB × List Nat) :=
  match db.collections.find? (fun c => c.id = cid) with
  | none => .error .DoesNotExist
  | some coll =>
    match evaluate_and_update_membership_for_multiple_groups b now db
        coll.user_groups with
    | .error e => .error e
    | .ok db1 =>
      let dups := duplicate_users db1.memberships coll.user_groups
      if dups = [] then .ok (db1, dups)
      else
        .ok ({ db1 with memberships := db1.memberships.filter (fun m =>
          ¬(m.user ∈ dups ∧ m.group ∈ coll.user_groups)) }, dups)

/-- `UserGroup.save` (`models.py`): for a persisted group, fetch the original
row and raise `ValueError` when the scope differs; otherwise write the row
(or insert a new one when `pk` is `None`). -/
def UserGroupRec.save (db : DB) (g : UserGroupRec) : Except CritError DB :=
  match g.pk with
  | some pk =>
    match db.groups.find? (fun r => r.pk = some pk) with
    | none => .error .DoesNotExist
    | some original =>
      if original.scope ≠ g.scope then
        .error (.ValueError "Cannot change the scope of an existing user group")
      else
        .ok { db with groups := db.groups.map (fun r =>
          if r.pk = some pk then g else r) }
  | none =>
    .ok { db with groups := db.groups ++ [{ g with pk := some (db.groups.length + 1) }] }

/-- The concrete field names of the `UserGroup` model (including the implicit
primary key), against which Django resolves `update(...)` keywords. -/
def user_group_field_names : List String :=
  ["id", "name", "description", "last_membership_change", "enabled", "scope"]

/-- Application of a resolved `update(field=value)` to a `UserGroup` row. -/
def apply_update_field (g : UserGroupRec) (field : String) (v : Value) :
    UserGroupRec :=
  if field = "enabled" then
    match v with | .vbool b => { g with enabled := b } | _ => g
  else if field = "name" then
    match v with | .vstr s => { g with name := s } | _ => g
  else if field = "description" then
    match v with | .vstr s => { g with description := s } | _ => g
  else g

/-- `UserGroup.objects.filter(id=group_id).update(field=value)`: Django
resolves the keyword against the model's fields and raises `FieldError` for
an unknown field name before touching any row. -/
def queryset_update_user_group (db : DB) (gid : Nat) (field : String)
    (v : Value) : Except CritError DB :=
  if field ∈ user_group_field_names then
    .ok { db with groups := db.groups.map (fun g =>
      if g.pk = some gid then apply_update_field g field v else g) }
  else .error (.FieldError field)

/-- `api.soft_delete_group`:
`UserGroup.objects.filter(id=group_id).update(is_active=False)`. -/
def soft_delete_group (db : DB) (gid : Nat) : Except CritError DB :=
  queryset_update_user_group db gid "is_active" (.vbool false)

/-- The `scope` dict argument of the creation API (`name`, optional
`description`, and a `content_object` with `content_type_model` and
`object_id`); `utils.process_content_object` maps `content_type_model` to a
`ContentType` whose `model` equals it in every branch. -/
structure ScopeSpecData where
  name : String
  description : String
  content_type_model : String
  object_id : String
deriving DecidableEq, Repr

/-- One entry of the `criteria` list argument of the creation API. -/
structure CriterionData where
  criterion_type : String
  criterion_operator : String
  criterion_config : ConfigData
deriving DecidableEq, Repr

/-- `Scope.objects.get_or_create(...)` on the full field tuple. -/
def get_or_create_scope (db : DB) (spec : ScopeSpecData) : DB × ScopeRec :=
  match db.scopes.find? (fun s => s.name = spec.name
      ∧ s.description = spec.description
      ∧ s.content_type_model = spec.content_type_model
      ∧ s.object_id = spec.object_id) with
  | some s => (db, s)
  | none =>
    let s : ScopeRec := ⟨db.scopes.length + 1, spec.name, spec.description,
      spec.content_type_model, spec.object_id⟩
    ({ db with scopes := db.scopes ++ [s] }, s)

/-- `UserGroup.objects.get_or_create(name=..., description=..., scope=...)`;
a created group is enabled by default. -/
def get_or_create_group (db : DB) (name description : String)
    (scopeId : Nat) (now : Int) : DB × Nat :=
  match db.groups.find? (fun g => g.name = name
      ∧ g.description = description ∧ g.scope = scopeId) with
  | some g => (db, g.pk.getD 0)
  | none =>
    let pk := db.groups.length + 1
    ({ db with groups :=
      db.groups ++ [⟨some pk, name, description, now, true, scopeId⟩] }, pk)

/-- `api.get_or_create_group_and_scope`. -/
def get_or_create_group_and_scope (db : DB) (name description : String)
    (spec : ScopeSpecData) (now : Int) : DB × Nat × ScopeRec :=
  let p1 := get_or_create_scope db spec
  let p2 := get_or_create_group p1.1 name description p1.2.id now
  (p2.1, p2.2, p1.2)

/-- Modelled from the spec: `load_criterion_class_and_create_instance` is
imported by `api.py` from `manager.py` but is not defined anywhere under the
source tree; per the spec's construction contract (§4.2) and the registry
contract (§4.1) it resolves the criterion class by type name through the
manager and constructs a validated instance bound to the group's scope (the
resolution and the validating constructor themselves are in the source and
embedded above); an unresolvable name yields `None`, which is not
constructable. -/
def load_criterion_class_and_create_instance (criterion_type op : String)
    (config : ConfigData) (scope : ScopeRec) :
    Except CritError CriterionInstance :=
  match get_criterion_class_by_type criterion_type with
  | none => .error (.TypeErr "NoneType object is not callable")
  | some cls => createInstance cls op config scope

/-- The criterion-creation loop of `api.create_group_with_criteria_from_data`:
instantiate (validating) each requested criterion and persist
`Criterion.objects.create(user_group=..., **criterion_instance.serialize())`. -/
def attach_criteria (gid : Nat) (scope : ScopeRec) :
    DB → List CriterionData → Except CritError DB
  | db, [] => .ok db
  | db, data :: rest =>
    match load_criterion_class_and_create_instance data.criterion_type
        data.criterion_operator data.criterion_config scope with
    | .error e => .error e
    | .ok inst =>
      let tr := inst.serialize
      attach_criteria gid scope
        { db with criteria := db.criteria
            ++ [⟨db.criteria.length + 1, tr.1, tr.2.1, tr.2.2, gid⟩] } rest

/-- `api.create_group_with_criteria_from_data`: get or create the scope and
the group, then validate and persist each criterion. -/
def create_group_with_criteria_from_data (db : DB) (name description : String)
    (spec : ScopeSpecData) (criteria : List CriterionData) (now : Int) :
    Except CritError (DB × Nat) :=
  let p := get_or_create_group_and_scope db name description spec now
  match attach_criteria p.2.1 p.2.2 p.1 criteria with
  | .error e => .error e
  | .ok db2 => .ok (db2, p.2.1)

/-- `transaction.atomic()`: on success the new state is committed; on an
exception every write inside the block is rolled back, so the caller
observes the original state together with the propagated error. -/
def run_atomic {α : Type} (db : DB) (act : Except CritError (DB × α)) :
    DB × Except CritError α :=
  match act with
  | .ok p => (p.1, .ok p.2)
  | .error e => (db, .error e)

/-- `api.create_group_with_criteria`: the creation wrapped in a
transaction. -/
def create_group_with_criteria (db : DB) (name description : String)
    (spec : ScopeSpecData) (criteria : List CriterionData) (now : Int) :
    DB × Except CritError Nat :=
  run_atomic db
    (create_group_with_criteria_from_data db name description spec criteria now)

/-! Shared example data used by witnesses and counterexamples. -/

/-- An instance-typed example scope (content type `auth` resolves to scope
type `"instance"`). -/
def exampleScope : ScopeRec := ⟨1, "site scope", "", "auth", "site"⟩

/-- A user whose last login was one hour ago (relative to `now = 0`). -/
def userRecentLogin : UserRec := ⟨1, "u1h", "u1h@example.com", false, false, -3600⟩

/-- A user whose last login was two days ago. -/
def userTwoDays : UserRec := ⟨2, "u2d", "u2d@example.com", false, false, -172800⟩

/-- A user whose last login was three days ago. -/
def userThreeDays : UserRec := ⟨3, "u3d", "u3d@example.com", false, false, -259200⟩

/-- Backend holding the three example users. -/
def exampleBackend : Backend :=
  ⟨[userRecentLogin, userTwoDays, userThreeDays], []⟩

/-! Helper lemmas. -/

/-- Every content type resolves to one of the three scope types, which is the
full default `scopes` list of `BaseCriterionType`. -/
theorem scope_type_mem_all (m : String) :
    get_scope_type_from_content_type m ∈ ["course", "organization", "instance"] := by
  unfold get_scope_type_from_content_type
  split
  · simp
  · split <;> simp

/-- `List.inter` membership, stated for the bare `List.inter` application the
reducer uses. -/
theorem mem_list_inter (u : UserRec) (l1 l2 : List UserRec) :
    u ∈ l1.inter l2 ↔ u ∈ l1 ∧ u ∈ l2 := by
  show u ∈ l1 ∩ l2 ↔ u ∈ l1 ∧ u ∈ l2
  exact List.mem_inter_iff

/-- Membership in the left-fold of queryset intersections. -/
theorem mem_foldl_inter (u : UserRec) (rest : List (List UserRec))
    (acc : List UserRec) :
    u ∈ rest.foldl (fun acc s => acc.inter s) acc
      ↔ u ∈ acc ∧ ∀ s ∈ rest, u ∈ s := by
  induction rest generalizing acc with
  | nil => simp
  | cons r rs ih =>
    simp only [List.foldl_cons, ih, mem_list_inter, List.mem_cons]
    constructor
    · rintro ⟨⟨hu, hr⟩, hall⟩
      refine ⟨hu, fun s hs => ?_⟩
      rcases hs with rfl | hs
      · exact hr
      · exact hall s hs
    · rintro ⟨hu, hall⟩
      exact ⟨⟨hu, hall r (Or.inl rfl)⟩, fun s hs => hall s (Or.inr hs)⟩

/-- The reducer computes exactly the intersection of all result sets, and the
empty set for an empty list of results. -/
theorem mem_combineResults (u : UserRec) (rs : List (List UserRec)) :
    u ∈ combineResults rs ↔ rs ≠ [] ∧ ∀ r ∈ rs, u ∈ r := by
  cases rs with
  | nil => simp [combineResults]
  | cons r rest =>
    simp only [combineResults, mem_foldl_inter, ne_eq, reduceCtorEq,
      not_false_iff, true_and, List.mem_cons]
    constructor
    · rintro ⟨hr, hall⟩
      exact fun s hs => by rcases hs with rfl | hs; exact hr; exact hall s hs
    · intro hall
      exact ⟨hall r (Or.inl rfl), fun s hs => hall s (Or.inr hs)⟩

/-- C1: For every group, `evaluate_and_update_membership_for_group` replaces
the group's persisted membership roster with exactly the intersection of the
user sets returned by `evaluate()` for each of its n criteria when n >= 1,
and with the empty set when the group has zero criteria: under the
hypotheses that the group and its scope exist and that every criterion
evaluation succeeds with result list `rs`, the update succeeds and the
group's stored roster is exactly `combineResults rs`, whose members are
characterized as the users lying in every per-criterion result (so for
`rs = []` the roster is empty). -/
theorem evaluate_and_update_replaces_roster_with_intersection
    (db : DB) (b : Backend) (now : Int) (gid : Nat) (g : UserGroupRec)
    (scope : ScopeRec) (rs : List (List UserRec))
    (hg : get_group_by_id db gid = some g)
    (hs : db.scopes.find? (fun s => s.id = g.scope) = some scope)
    (hrs : criteriaResults b now scope (sorted_group_criteria db gid) = .ok rs) :
    ∃ db2, evaluate_and_update_membership_for_group db b now gid = .ok db2
      ∧ (db2.memberships.filter (fun m => m.group = gid)).map (fun m => m.user)
          = (combineResults rs).map (fun u => u.id)
      ∧ ∀ u : UserRec, u ∈ combineResults rs ↔ rs ≠ [] ∧ ∀ r ∈ rs, u ∈ r := by
  refine ⟨{ db with
      memberships := db.memberships.filter (fun m => m.group ≠ gid)
        ++ (combineResults rs).map (fun u => ⟨u.id, gid, now, none, true⟩),
      groups := db.groups.map (fun gr =>
        if gr.pk = some gid then { gr with last_membership_change := now }
        else gr) },
    ?_, ?_, fun u => mem_combineResults u rs⟩
  · simp only [evaluate_and_update_membership_for_group, hg, hs, hrs]
  · have h1 : (db.memberships.filter (fun m => m.group ≠ gid)).filter
        (fun m => m.group = gid) = [] := by
      rw [List.filter_filter]
      apply List.filter_eq_nil_iff.mpr
      intro m _
      by_cases h : m.group = gid <;> simp [h]
    have h2 : ((combineResults rs).map
          (fun u => (⟨u.id, gid, now, none, true⟩ : MembershipRec))).filter
        (fun m => m.group = gid) = (combineResults rs).map
          (fun u => (⟨u.id, gid, now, none, true⟩ : MembershipRec)) := by
      apply List.filter_eq_self.mpr
      intro m hm
      obtain ⟨u, _, rfl⟩ := List.mem_map.mp hm
      simp
    simp only [List.filter_append, h1, h2, List.nil_append, List.map_map]
    rfl

/-- A concrete database: one enabled group with two manual criteria and one
stale membership row. -/
def exampleGroupDB : DB := ⟨[exampleScope],
  [⟨some 1, "example group", "", 0, true, 1⟩],
  [⟨1, "manual", "in", [("usernames_or_emails", .vlist ["u1h", "u2d"])], 1⟩,
   ⟨2, "manual", "in", [("usernames_or_emails", .vlist ["u2d", "u3d"])], 1⟩],
  [⟨9, 1, -5, none, true⟩], []⟩

/-- Witness for C1: on `exampleGroupDB` both manual criteria evaluate and the
roster becomes exactly their intersection. -/
theorem evaluate_and_update_replaces_roster_with_intersection_witness :
    ∃ db2, evaluate_and_update_membership_for_group exampleGroupDB
        exampleBackend 0 1 = .ok db2
      ∧ (db2.memberships.filter (fun m => m.group = 1)).map (fun m => m.user)
          = (combineResults [[userRecentLogin, userTwoDays],
              [userTwoDays, userThreeDays]]).map (fun u => u.id)
      ∧ ∀ u : UserRec,
          u ∈ combineResults [[userRecentLogin, userTwoDays],
              [userTwoDays, userThreeDays]]
            ↔ [[userRecentLogin, userTwoDays], [userTwoDays, userThreeDays]]
                ≠ ([] : List (List UserRec))
              ∧ ∀ r ∈ [[userRecentLogin, userTwoDays],
                  [userTwoDays, userThreeDays]], u ∈ r :=
  evaluate_and_update_replaces_roster_with_intersection exampleGroupDB
    exampleBackend 0 1 ⟨some 1, "example group", "", 0, true, 1⟩ exampleScope
    [[userRecentLogin, userTwoDays], [userTwoDays, userThreeDays]]
    (by rfl) (by rfl) (by rfl)

/-- A non-staff user whose last login is `now` itself, distinct from any
threshold in the past. -/
def notEqualUser : UserRec := ⟨7, "u0", "u0@example.com", false, false, 0⟩

/-- Backend holding only `notEqualUser`. -/
def notEqualBackend : Backend := ⟨[notEqualUser], []⟩

/-- A database with one group whose single criterion is `last_login` with
operator `"!="` and `days = 1`. -/
def notEqualDB : DB := ⟨[exampleScope], [⟨some 1, "ne group", "", 0, true, 1⟩],
  [⟨1, "last_login", "!=", [("days", .vint 1)], 1⟩], [], []⟩

/-- Counterexample to C2: `NOT_EQUAL` is NOT negated upstream by the caller.
A group with a single `last_login NOT_EQUAL days=1` criterion, evaluated over
a candidate user whose `last_login` differs from the threshold, ends with an
empty roster — under the claimed upstream negation that user would be a
member.  Indeed `NOT_EQUAL` evaluates identically to `EQUAL`. -/
theorem last_login_not_equal_not_negated_upstream :
    (∃ db2, evaluate_and_update_membership_for_group notEqualDB
        notEqualBackend 0 1 = .ok db2
      ∧ db2.memberships.filter (fun m => m.group = 1) = [])
    ∧ notEqualUser ∈ get_users notEqualBackend exampleScope
    ∧ notEqualUser.last_login ≠ 0 - 1 * 86400
    ∧ evaluateInstance (.last_login .NOT_EQUAL ⟨1⟩ exampleScope)
        notEqualBackend 0
      = evaluateInstance (.last_login .EQUAL ⟨1⟩ exampleScope)
          notEqualBackend 0 := by
  exact ⟨⟨_, rfl, rfl⟩, by decide, by decide, rfl⟩

/-- C2 (amended): For every `last_login` criterion with `days = d`,
`evaluate()` compares each user's `last_login` against
`threshold = now - d days` with the inverted mapping — `EQUAL` exact,
`GREATER_THAN` strictly before the threshold, `GREATER_THAN_OR_EQUAL`
on-or-before, `LESS_THAN` strictly after, `LESS_THAN_OR_EQUAL` on-or-after —
while `NOT_EQUAL` also compares for exact equality and is not negated
anywhere (it behaves identically to `EQUAL`).  With `days = 1` and
`GREATER_THAN`, the users who last logged in 2 and 3 days ago match and the
user who logged in 1 hour ago does not; with `LESS_THAN` only the 1-hour-ago
user matches. -/
theorem last_login_operator_mapping (d : Int) (scope : ScopeRec)
    (b : Backend) (now : Int) :
    (evaluateInstance (.last_login .EQUAL ⟨d⟩ scope) b now
      = some ((get_users b scope).filter
          (fun u => u.last_login = now - d * 86400)))
    ∧ (evaluateInstance (.last_login .NOT_EQUAL ⟨d⟩ scope) b now
      = some ((get_users b scope).filter
          (fun u => u.last_login = now - d * 86400)))
    ∧ (evaluateInstance (.last_login .GREATER_THAN ⟨d⟩ scope) b now
      = some ((get_users b scope).filter
          (fun u => u.last_login < now - d * 86400)))
    ∧ (evaluateInstance (.last_login .GREATER_THAN_OR_EQUAL ⟨d⟩ scope) b now
      = some ((get_users b scope).filter
          (fun u => u.last_login ≤ now - d * 86400)))
    ∧ (evaluateInstance (.last_login .LESS_THAN ⟨d⟩ scope) b now
      = some ((get_users b scope).filter
          (fun u => now - d * 86400 < u.last_login)))
    ∧ (evaluateInstance (.last_login .LESS_THAN_OR_EQUAL ⟨d⟩ scope) b now
      = some ((get_users b scope).filter
          (fun u => now - d * 86400 ≤ u.last_login)))
    ∧ evaluateInstance (.last_login .GREATER_THAN ⟨1⟩ exampleScope)
        exampleBackend 0 = some [userTwoDays, userThreeDays]
    ∧ evaluateInstance (.last_login .LESS_THAN ⟨1⟩ exampleScope)
        exampleBackend 0 = some [userRecentLogin] := by
  exact ⟨rfl, rfl, rfl, rfl, rfl, rfl, by rfl, by rfl⟩

/-- Counterexample to C3: with stored configuration
`{"a": 1, "b": 2}` and payload `{"b": 3}`, the key `"b"` is present in the
payload with a different value, yet the heuristic reports "not changed"
(`false`), because it stops at the first configuration key (`"a"`) absent
from the payload.  So "changed exactly when some configuration key is
present with a different value" fails. -/
theorem check_membership_state_changed_counterexample :
    check_if_membership_state_changed [("b", .vint 3)]
        [("a", .vint 1), ("b", .vint 2)] = false
    ∧ ("b", Value.vint 2) ∈ [("a", Value.vint 1), ("b", Value.vint 2)]
    ∧ lookupKey [("b", Value.vint 3)] "b" = some (.vint 3)
    ∧ Value.vint 3 ≠ Value.vint 2 := by
  exact ⟨rfl, by decide, rfl, by decide⟩

/-- C3 (amended): the staleness heuristic scans the stored configuration's
keys in order and returns the verdict of the first key that is absent from
the payload ("not changed") or present with a differing value ("changed"),
reporting "not changed" when every key is present and equal: it reports
"changed" exactly when some configuration entry has a differing payload
value and every entry before it is present in the payload with an equal
value. -/
theorem check_membership_state_changed_iff (ev : ConfigData)
    (cfg : ConfigData) :
    check_if_membership_state_changed ev cfg = true ↔
      ∃ pre kv post, cfg = pre ++ kv :: post
        ∧ (∀ kv2 ∈ pre, lookupKey ev kv2.1 = some kv2.2)
        ∧ ∃ w, lookupKey ev kv.1 = some w ∧ w ≠ kv.2 := by
  induction cfg with
  | nil =>
    constructor
    · intro h
      simp [check_if_membership_state_changed] at h
    · rintro ⟨pre, kv, post, heq, -, -⟩
      cases pre <;> simp at heq
  | cons hd rest ih =>
    obtain ⟨k, v⟩ := hd
    simp only [check_if_membership_state_changed]
    cases hl : lookupKey ev k with
    | none =>
      simp only [reduceCtorEq, false_iff]
      rintro ⟨pre, kv, post, heq, hpre, w, hw, -⟩
      cases pre with
      | nil =>
        simp only [List.nil_append, List.cons.injEq] at heq
        obtain ⟨rfl, rfl⟩ := heq
        rw [hl] at hw
        cases hw
      | cons p ps =>
        simp only [List.cons_append, List.cons.injEq] at heq
        obtain ⟨rfl, -⟩ := heq
        have hm := hpre (k, v) (List.mem_cons_self _ _)
        rw [hl] at hm
        cases hm
    | some w =>
      by_cases hwv : w = v
      · subst hwv
        simp only [ne_eq, not_true_eq_false, if_false, ih]
        constructor
        · rintro ⟨pre, kv, post, rfl, hpre, w2, hw2, hne⟩
          refine ⟨(k, w) :: pre, kv, post, rfl, ?_, w2, hw2, hne⟩
          intro kv2 hm
          rcases List.mem_cons.mp hm with rfl | hm
          · exact hl
          · exact hpre kv2 hm
        · rintro ⟨pre, kv, post, heq, hpre, w2, hw2, hne⟩
          cases pre with
          | nil =>
            simp only [List.nil_append, List.cons.injEq] at heq
            obtain ⟨rfl, rfl⟩ := heq
            rw [hl] at hw2
            cases hw2
            exact absurd rfl hne
          | cons p ps =>
            simp only [List.cons_append, List.cons.injEq] at heq
            obtain ⟨rfl, rfl⟩ := heq
            exact ⟨ps, kv, post, rfl,
              fun kv2 hm => hpre kv2 (List.mem_cons_of_mem _ hm), w2, hw2, hne⟩
      · simp only [ne_eq, hwv, not_false_iff, if_true, true_iff]
        exact ⟨[], (k, v), rest, rfl,
          fun kv2 hm => absurd hm (List.not_mem_nil kv2), w, hl, hwv⟩

/-- Appending a string to `"Unknown_"` yields a string starting with
`"Unknown_"`. -/
theorem str_startswith_unknown_append (t : String) :
    str_startswith ("Unknown_" ++ t) "Unknown_" = true := by
  unfold str_startswith
  rw [String.data_append]
  exact List.isPrefixOf_iff_prefix.mpr (List.prefix_append _ _)

/-- Counterexample to C4: resolving the unregistered type name
`"nonexistent"` does not fail with an `UnknownCriterionType` error — the
manager silently returns `None`. -/
theorem get_criterion_class_unregistered_counterexample :
    criterion_registry.find? (fun kv => kv.1 = "nonexistent") = none
    ∧ get_criterion_class_by_type "nonexistent" = none := by
  exact ⟨by rfl, by rfl⟩

/-- C4 (amended): for every type name not present in the criterion registry,
`get_criterion_class_by_type` returns `None` — a silent no-op the callers
must handle, not a raised `UnknownCriterionType` validation error. -/
theorem get_criterion_class_unregistered_returns_none (t : String)
    (h : criterion_registry.find? (fun kv => kv.1 = t) = none) :
    get_criterion_class_by_type t = none := by
  unfold get_criterion_class_by_type get_criterion_type_by_type
  rw [h]
  simp [str_startswith_unknown_append]

/-- Witness for C4 (amended): applied at the unregistered name
`"nonexistent"`. -/
theorem get_criterion_class_unregistered_returns_none_witness :
    get_criterion_class_by_type "nonexistent" = none :=
  get_criterion_class_unregistered_returns_none "nonexistent" (by rfl)

/-- C5 (code bug): `soft_delete_group` updates the field name `is_active`,
which is not a field of `UserGroup` (the flag is called `enabled`;
`is_active` belongs to `UserGroupMembership`), so for every database and
group id the call raises `FieldError` and no row is touched — the group's
`enabled` flag is never cleared.  The claim (clear the enabled flag, retain
the data) matches the model definition and the function's own docstring; the
code uses the wrong field name. -/
theorem soft_delete_group_raises_field_error :
    (∀ db gid, soft_delete_group db gid = .error (.FieldError "is_active"))
    ∧ "is_active" ∉ user_group_field_names
    ∧ "enabled" ∈ user_group_field_names
    ∧ (soft_delete_group exampleGroupDB 1 = .error (.FieldError "is_active")
        ∧ (get_group_by_id exampleGroupDB 1).map (fun g => g.enabled)
            = some true) := by
  refine ⟨fun db gid => ?_, by decide, by decide, by rfl, by rfl⟩
  rfl

/-- C8: For every persisted group, attempting to change its scope and save
fails with `ValueError`, and the stored scope is unchanged after the failed
save: `UserGroup.save` fetches the original row and raises before writing
anything. -/
theorem user_group_save_scope_immutable (db : DB) (g : UserGroupRec)
    (pk : Nat) (original : UserGroupRec)
    (hpk : g.pk = some pk)
    (hfind : db.groups.find? (fun r => r.pk = some pk) = some original)
    (hscope : original.scope ≠ g.scope) :
    UserGroupRec.save db g
      = .error (.ValueError "Cannot change the scope of an existing user group")
    ∧ (db.groups.find? (fun r => r.pk = some pk)).map (fun r => r.scope)
        = some original.scope := by
  constructor
  · simp only [UserGroupRec.save, hpk, hfind]
    rw [if_pos hscope]
  · rw [hfind]
    rfl

/-- Witness for C8: a persisted group with scope 1 saved with scope 2. -/
theorem user_group_save_scope_immutable_witness :
    UserGroupRec.save exampleGroupDB ⟨some 1, "example group", "", 0, true, 2⟩
      = .error (.ValueError "Cannot change the scope of an existing user group")
    ∧ (exampleGroupDB.groups.find? (fun r => r.pk = some 1)).map
        (fun r => r.scope) = some (1 : Nat) :=
  user_group_save_scope_immutable exampleGroupDB
    ⟨some 1, "example group", "", 0, true, 2⟩ 1
    ⟨some 1, "example group", "", 0, true, 1⟩ (by rfl) (by rfl) (by decide)

/-- C10: For every valid manual-criterion configuration and every backend,
`ManualCriterion.evaluate()` returns the same user set for both supported
operators: construction succeeds for `"in"` and for `"not_in"`, and the two
instances evaluate identically (the evaluation ignores the bound
operator). -/
theorem manual_criterion_operator_irrelevant (config : ConfigData)
    (scope : ScopeRec) (b : Backend) (now : Int) (c : ManualConfig)
    (h : ManualConfig.validate config = some c) :
    ∃ i1 i2, createInstance .ManualCriterion "in" config scope = .ok i1
      ∧ createInstance .ManualCriterion "not_in" config scope = .ok i2
      ∧ evaluateInstance i1 b now = evaluateInstance i2 b now := by
  have hsc : check_scope .ManualCriterion scope = .ok () := by
    unfold check_scope
    rw [if_pos]
    exact scope_type_mem_all _
  have hop1 : validate_operator .ManualCriterion "in" = .ok .IN := by rfl
  have hop2 : validate_operator .ManualCriterion "not_in" = .ok .NOT_IN := by rfl
  refine ⟨.manual .IN c scope, .manual .NOT_IN c scope, ?_, ?_, rfl⟩
  · simp only [createInstance, h, hop1, hsc]
  · simp only [createInstance, h, hop2, hsc]

/-- Witness for C10: a two-entry manual list on the example backend. -/
theorem manual_criterion_operator_irrelevant_witness :
    ∃ i1 i2, createInstance .ManualCriterion "in"
        [("usernames_or_emails", .vlist ["u1h", "u2d@example.com"])]
        exampleScope = .ok i1
      ∧ createInstance .ManualCriterion "not_in"
          [("usernames_or_emails", .vlist ["u1h", "u2d@example.com"])]
          exampleScope = .ok i2
      ∧ evaluateInstance i1 exampleBackend 0
          = evaluateInstance i2 exampleBackend 0 :=
  manual_criterion_operator_irrelevant
    [("usernames_or_emails", .vlist ["u1h", "u2d@example.com"])]
    exampleScope exampleBackend 0 ⟨["u1h", "u2d@example.com"]⟩ (by rfl)

/-- A criterion class whose `scopes` list does not contain the resolved
scope type can never be constructed: some validation step errors (an invalid
configuration or operator errors earlier; otherwise the scope assertion
fires). -/
theorem createInstance_scope_incompatible (cls : CriterionClass)
    (op : String) (config : ConfigData) (scope : ScopeRec)
    (h : get_scope_type_from_content_type scope.content_type_model
      ∉ cls.scopes) :
    ∀ i, createInstance cls op config scope ≠ .ok i := by
  have hsc : check_scope cls scope
      = .error (.ScopeAssertionError cls.criterion_type
          (get_scope_type_from_content_type scope.content_type_model)) := by
    unfold check_scope
    rw [if_neg h]
  intro i
  cases cls <;>
  · simp only [createInstance]
    split
    · simp
    · split
      · simp
      · rw [hsc]
        simp

/-- If some requested criterion can never be instantiated against the scope,
the criterion-creation loop errors, whatever the starting state. -/
theorem attach_criteria_error (gid : Nat) (scope : ScopeRec)
    (criteria : List CriterionData) (data : CriterionData)
    (hmem : data ∈ criteria)
    (hfail : ∀ i, load_criterion_class_and_create_instance
      data.criterion_type data.criterion_operator data.criterion_config
      scope ≠ .ok i) :
    ∀ db db2, attach_criteria gid scope db criteria ≠ .ok db2 := by
  induction criteria with
  | nil => cases hmem
  | cons hd rest ih =>
    intro db db2
    simp only [attach_criteria]
    rcases List.mem_cons.mp hmem with rfl | hmem2
    · cases hload : load_criterion_class_and_create_instance
          data.criterion_type data.criterion_operator data.criterion_config
          scope with
      | error e => simp
      | ok i => exact absurd hload (hfail i)
    · cases hload : load_criterion_class_and_create_instance
          hd.criterion_type hd.criterion_operator hd.criterion_config
          scope with
      | error e => simp
      | ok i => exact ih hmem2 _ db2

/-- The resolved scope of a creation call carries the requested content
type: `get_or_create` either finds a row matching all requested fields or
inserts one built from them. -/
theorem get_or_create_scope_content_type (db : DB) (spec : ScopeSpecData) :
    (get_or_create_scope db spec).2.content_type_model
      = spec.content_type_model := by
  unfold get_or_create_scope
  cases hf : db.scopes.find? (fun s => s.name = spec.name
      ∧ s.description = spec.description
      ∧ s.content_type_model = spec.content_type_model
      ∧ s.object_id = spec.object_id) with
  | none => rfl
  | some s =>
    have hp := List.find?_some hf
    simp only [decide_eq_true_eq] at hp
    exact hp.2.2.1

/-- C6: For every `create_group_with_criteria` call in which some requested
criterion resolves to a class whose supported-scope set does not include the
resolved scope type of the group's scope, the whole operation fails and the
transaction leaves the database exactly as it was — neither the group nor
any criterion is persisted. -/
theorem create_group_with_criteria_scope_gate (db : DB)
    (name description : String) (spec : ScopeSpecData)
    (criteria : List CriterionData) (now : Int) (data : CriterionData)
    (cls : CriterionClass)
    (hmem : data ∈ criteria)
    (hcls : get_criterion_class_by_type data.criterion_type = some cls)
    (h : get_scope_type_from_content_type spec.content_type_model
      ∉ cls.scopes) :
    ∃ e, create_group_with_criteria db name description spec criteria now
      = (db, .error e) := by
  have hct : (get_or_create_group_and_scope db name description spec
      now).2.2.content_type_model = spec.content_type_model := by
    show (get_or_create_scope db spec).2.content_type_model
      = spec.content_type_model
    exact get_or_create_scope_content_type db spec
  have hfail : ∀ i, load_criterion_class_and_create_instance
      data.criterion_type data.criterion_operator data.criterion_config
      (get_or_create_group_and_scope db name description spec now).2.2
      ≠ .ok i := by
    intro i
    unfold load_criterion_class_and_create_instance
    rw [hcls]
    apply createInstance_scope_incompatible
    rw [hct]
    exact h
  have hattach := attach_criteria_error
    (get_or_create_group_and_scope db name description spec now).2.1
    (get_or_create_group_and_scope db name description spec now).2.2
    criteria data hmem hfail
  simp only [create_group_with_criteria, run_atomic,
    create_group_with_criteria_from_data]
  cases ha : attach_criteria
      (get_or_create_group_and_scope db name description spec now).2.1
      (get_or_create_group_and_scope db name description spec now).2.2
      (get_or_create_group_and_scope db name description spec now).1
      criteria with
  | error e => exact ⟨e, rfl⟩
  | ok db2 => exact absurd ha (hattach _ db2)

/-- Witness for C6: creating a group on an instance-typed scope with a
`course_enrollment` criterion (supported scopes `{"course"}`) fails and
leaves the empty database unchanged. -/
theorem create_group_with_criteria_scope_gate_witness :
    ∃ e, create_group_with_criteria ⟨[], [], [], [], []⟩ "g" ""
      ⟨"site scope", "", "auth", "site"⟩
      [⟨"course_enrollment", "in", [("mode", .vstr "audit")]⟩] 0
      = (⟨[], [], [], [], []⟩, .error e) :=
  create_group_with_criteria_scope_gate ⟨[], [], [], [], []⟩ "g" ""
    ⟨"site scope", "", "auth", "site"⟩
    [⟨"course_enrollment", "in", [("mode", .vstr "audit")]⟩] 0
    ⟨"course_enrollment", "in", [("mode", .vstr "audit")]⟩
    .CourseEnrollmentCriterion (by decide) (by rfl) (by decide)

/-- Characterization of the duplicates query: a user id is reported exactly
when it has memberships in more than one distinct group of the collection. -/
theorem mem_duplicate_users (ms : List MembershipRec) (groups : List Nat)
    (uid : Nat) :
    uid ∈ duplicate_users ms groups ↔
      1 < ((ms.filter (fun m => m.group ∈ groups ∧ m.user = uid)).map
        (fun m => m.group)).dedup.length := by
  unfold duplicate_users
  rw [List.mem_filter]
  constructor
  · rintro ⟨-, hp⟩
    simpa using hp
  · intro hp
    refine ⟨?_, by simpa using hp⟩
    rw [List.mem_dedup, List.mem_map]
    have hne : ms.filter (fun m => m.group ∈ groups ∧ m.user = uid) ≠ [] := by
      intro h0
      rw [h0] at hp
      simp at hp
    obtain ⟨m, hm⟩ := List.exists_mem_of_ne_nil _ hne
    have hm2 := List.mem_filter.mp hm
    simp only [decide_eq_true_eq] at hm2
    refine ⟨m, ?_, hm2.2.2⟩
    rw [List.mem_filter]
    exact ⟨hm2.1, by simp [hm2.2.1]⟩

/-- C7: For every group collection, after re-evaluating every group of the
collection (post-reconciliation state `db1`),
`evaluate_and_update_membership_for_group_collection` reports as duplicates
exactly the users holding memberships in more than one distinct group of the
collection, removes every reported user from every group of the collection,
and the reported set is non-empty exactly when some user belonged to more
than one of the collection's groups after reconciliation. -/
theorem group_collection_duplicates_removed (db : DB) (b : Backend)
    (now : Int) (cid : Nat) (coll : GroupCollectionRec) (db1 db2 : DB)
    (dups : List Nat)
    (hcoll : db.collections.find? (fun c => c.id = cid) = some coll)
    (hfold : evaluate_and_update_membership_for_multiple_groups b now db
      coll.user_groups = .ok db1)
    (heval : evaluate_and_update_membership_for_group_collection db b now cid
      = .ok (db2, dups)) :
    (∀ uid, uid ∈ dups ↔
      1 < ((db1.memberships.filter
        (fun m => m.group ∈ coll.user_groups ∧ m.user = uid)).map
          (fun m => m.group)).dedup.length)
    ∧ (∀ uid ∈ dups, ∀ m ∈ db2.memberships,
        m.user = uid → m.group ∉ coll.user_groups)
    ∧ (dups ≠ [] ↔ ∃ uid,
      1 < ((db1.memberships.filter
        (fun m => m.group ∈ coll.user_groups ∧ m.user = uid)).map
          (fun m => m.group)).dedup.length) := by
  simp only [evaluate_and_update_membership_for_group_collection, hcoll,
    hfold] at heval
  by_cases hd : duplicate_users db1.memberships coll.user_groups = []
  · rw [if_pos hd] at heval
    obtain ⟨rfl, rfl⟩ : db1 = db2 ∧ duplicate_users db1.memberships
        coll.user_groups = dups := by
      injection heval with h2
      exact ⟨congrArg Prod.fst h2, congrArg Prod.snd h2⟩
    refine ⟨fun uid => mem_duplicate_users _ _ uid, ?_, ?_⟩
    · intro uid huid
      rw [hd] at huid
      cases huid
    · rw [hd]
      constructor
      · intro hne
        exact absurd rfl hne
      · rintro ⟨uid, hp⟩
        have := (mem_duplicate_users db1.memberships coll.user_groups
          uid).mpr hp
        rw [hd] at this
        cases this
  · rw [if_neg hd] at heval
    injection heval with h2
    rw [Prod.mk.injEq] at h2
    obtain ⟨h2a, h2b⟩ := h2
    have hdb2 : db2.memberships = List.filter (fun m =>
        ¬(m.user ∈ duplicate_users db1.memberships coll.user_groups
          ∧ m.group ∈ coll.user_groups)) db1.memberships := by
      rw [← h2a]
    have hdups : dups = duplicate_users db1.memberships coll.user_groups :=
      h2b.symm
    subst hdups
    refine ⟨fun uid => mem_duplicate_users _ _ uid, ?_, ?_⟩
    · intro uid huid m hm hmu
      rw [hdb2] at hm
      have hm2 := List.mem_filter.mp hm
      intro hg
      apply absurd hm2.2
      simp [hmu, huid, hg]
    · constructor
      · intro hne
        obtain ⟨uid, huid⟩ := List.exists_mem_of_ne_nil _ hne
        exact ⟨uid, (mem_duplicate_users _ _ uid).mp huid⟩
      · rintro ⟨uid, hp⟩
        intro h0
        have := (mem_duplicate_users db1.memberships coll.user_groups
          uid).mpr hp
        rw [h0] at this
        cases this

/-- A database with two groups in one collection whose manual criteria
overlap on user 2. -/
def collectionDB : DB := ⟨[exampleScope],
  [⟨some 1, "g1", "", 0, true, 1⟩, ⟨some 2, "g2", "", 0, true, 1⟩],
  [⟨1, "manual", "in", [("usernames_or_emails", .vlist ["u2d"])], 1⟩,
   ⟨2, "manual", "in", [("usernames_or_emails", .vlist ["u1h", "u2d"])], 2⟩],
  [], [⟨5, "both groups", "", [1, 2]⟩]⟩

/-- `collectionDB` after re-evaluating both groups: user 2 sits in both. -/
def collectionDB1 : DB := { collectionDB with memberships :=
  [⟨2, 1, 0, none, true⟩, ⟨1, 2, 0, none, true⟩, ⟨2, 2, 0, none, true⟩] }

/-- `collectionDB` after duplicate removal: only user 1 remains, in group 2. -/
def collectionDB2 : DB := { collectionDB with memberships :=
  [⟨1, 2, 0, none, true⟩] }

/-- Witness for C7: the collection run on `collectionDB` reports exactly user
2 as a duplicate and removes it from both groups. -/
theorem group_collection_duplicates_removed_witness :
    (∀ uid, uid ∈ [2] ↔
      1 < ((collectionDB1.memberships.filter
        (fun m => m.group ∈ [1, 2] ∧ m.user = uid)).map
          (fun m => m.group)).dedup.length)
    ∧ (∀ uid ∈ [2], ∀ m ∈ collectionDB2.memberships,
        m.user = uid → m.group ∉ [1, 2])
    ∧ (([2] : List Nat) ≠ [] ↔ ∃ uid,
      1 < ((collectionDB1.memberships.filter
        (fun m => m.group ∈ [1, 2] ∧ m.user = uid)).map
          (fun m => m.group)).dedup.length) :=
  group_collection_duplicates_removed collectionDB exampleBackend 0 5
    ⟨5, "both groups", "", [1, 2]⟩ collectionDB1 collectionDB2 [2]
    (by rfl) (by rfl) (by rfl)

/-- Parsing the string value of an operator member yields that member. -/
theorem ComparisonOperator.ofString_value (op : ComparisonOperator) :
    ComparisonOperator.ofString op.value = some op := by
  cases op <;> rfl

/-- If an operator string validated to `op`, then the canonical value string
of `op` validates to `op` as well (the support check depends only on the
parsed member). -/
theorem validate_operator_ok_value (cls : CriterionClass) (s : String)
    (o : ComparisonOperator) (h : validate_operator cls s = .ok o) :
    validate_operator cls o.value = .ok o := by
  unfold validate_operator at h ⊢
  rw [ComparisonOperator.ofString_value]
  cases hos : ComparisonOperator.ofString s with
  | none => rw [hos] at h; cases h
  | some o2 =>
    simp only [hos] at h
    cases hsup : cls.supported_operators with
    | none => simp only [hsup]
    | some ops =>
      simp only [hsup] at h ⊢
      by_cases he : ops = []
      · rw [if_pos he]
      · rw [if_neg he] at h ⊢
        by_cases hin : o2 ∈ ops
        · rw [if_pos hin] at h
          injection h with h
          subst h
          rw [if_pos hin]
        · rw [if_neg hin] at h
          cases h

/-- A validated manual configuration has a non-empty user list. -/
theorem ManualConfig.validate_length (d : ConfigData) (c : ManualConfig)
    (h : ManualConfig.validate d = some c) :
    1 ≤ c.usernames_or_emails.length := by
  unfold ManualConfig.validate at h
  split at h
  next xs heq =>
    split at h
    next hlen =>
      injection h with h2
      rw [← h2]
      exact hlen
    next => cases h
  next => cases h

/-- Dump-then-validate is the identity on valid manual configurations. -/
theorem manual_dump_then_validate (c : ManualConfig)
    (h : 1 ≤ c.usernames_or_emails.length) :
    ManualConfig.validate c.model_dump = some c := by
  have hlk : lookupKey c.model_dump "usernames_or_emails"
      = some (.vlist c.usernames_or_emails) := rfl
  unfold ManualConfig.validate
  simp only [hlk]
  rw [if_pos h]

/-- A validated last-login configuration has a non-negative day count. -/
theorem LastLoginConfig.validate_days (d : ConfigData) (c : LastLoginConfig)
    (h : LastLoginConfig.validate d = some c) : 0 ≤ c.days := by
  unfold LastLoginConfig.validate at h
  split at h
  next n heq =>
    split at h
    next hge =>
      injection h with h2
      rw [← h2]
      exact hge
    next => cases h
  next => cases h

/-- Dump-then-validate is the identity on valid last-login configurations. -/
theorem last_login_dump_then_validate (c : LastLoginConfig)
    (h : 0 ≤ c.days) : LastLoginConfig.validate c.model_dump = some c := by
  have hlk : lookupKey c.model_dump "days" = some (.vint c.days) := rfl
  unfold LastLoginConfig.validate
  simp only [hlk]
  rw [if_pos h]

/-- Dump-then-validate is the identity on course-enrollment configurations. -/
theorem course_enrollment_dump_then_validate
    (c : CourseEnrollmentConfig) :
    CourseEnrollmentConfig.validate c.model_dump = some c := by
  obtain ⟨m, e⟩ := c
  cases m <;> cases e <;> rfl

/-- Dump-then-validate is the identity on enrollment-mode configurations. -/
theorem enrollment_mode_dump_then_validate (c : EnrollmentModeConfig) :
    EnrollmentModeConfig.validate c.model_dump = some c := rfl

/-- Dump-then-validate is the identity on staff-status configurations. -/
theorem user_staff_dump_then_validate
    (c : UserStaffStatusConfig) :
    UserStaffStatusConfig.validate c.model_dump = some c := rfl

/-- C9: For every concrete criterion type and every valid (operator, config)
pair, constructing an instance, serializing it to the
(type name, operator, config-as-plain-data) triple, and reconstructing an
instance from that serialized form (as `Criterion.criterion_instance` does)
succeeds and yields a criterion whose `evaluate()` result is identical to
the original's on the same backend data. -/
theorem criterion_serialize_roundtrip (cls : CriterionClass) (op : String)
    (config : ConfigData) (scope : ScopeRec) (inst : CriterionInstance)
    (b : Backend) (now : Int)
    (h : createInstance cls op config scope = .ok inst) :
    ∃ i2, reconstructInstance inst.serialize scope = .ok i2
      ∧ evaluateInstance i2 b now = evaluateInstance inst b now := by
  cases cls with
  | ManualCriterion =>
    simp only [createInstance] at h
    split at h
    next => cases h
    next cfg hv =>
      split at h
      next => cases h
      next o ho =>
        split at h
        next => cases h
        next u hs =>
          injection h with h
          subst h
          refine ⟨.manual o cfg scope, ?_, rfl⟩
          have hcls : get_criterion_class_by_type "manual"
              = some .ManualCriterion := by rfl
          simp only [CriterionInstance.serialize, reconstructInstance,
            criterion_instance, hcls]
          simp only [createInstance, manual_dump_then_validate cfg
              (ManualConfig.validate_length config cfg hv),
            validate_operator_ok_value _ _ _ ho, hs]
  | CourseEnrollmentCriterion =>
    simp only [createInstance] at h
    split at h
    next => cases h
    next cfg hv =>
      split at h
      next => cases h
      next o ho =>
        split at h
        next => cases h
        next u hs =>
          injection h with h
          subst h
          refine ⟨.course_enrollment o cfg scope, ?_, rfl⟩
          have hcls : get_criterion_class_by_type "course_enrollment"
              = some .CourseEnrollmentCriterion := by rfl
          simp only [CriterionInstance.serialize, reconstructInstance,
            criterion_instance, hcls]
          simp only [createInstance, course_enrollment_dump_then_validate cfg,
            validate_operator_ok_value _ _ _ ho, hs]
  | LastLoginCriterion =>
    simp only [createInstance] at h
    split at h
    next => cases h
    next cfg hv =>
      split at h
      next => cases h
      next o ho =>
        split at h
        next => cases h
        next u hs =>
          injection h with h
          subst h
          refine ⟨.last_login o cfg scope, ?_, rfl⟩
          have hcls : get_criterion_class_by_type "last_login"
              = some .LastLoginCriterion := by rfl
          simp only [CriterionInstance.serialize, reconstructInstance,
            criterion_instance, hcls]
          simp only [createInstance, last_login_dump_then_validate cfg
              (LastLoginConfig.validate_days config cfg hv),
            validate_operator_ok_value _ _ _ ho, hs]
  | EnrollmentModeCriterion =>
    simp only [createInstance] at h
    split at h
    next => cases h
    next cfg hv =>
      split at h
      next => cases h
      next o ho =>
        split at h
        next => cases h
        next u hs =>
          injection h with h
          subst h
          refine ⟨.enrollment_mode o cfg scope, ?_, rfl⟩
          have hcls : get_criterion_class_by_type "enrollment_mode"
              = some .EnrollmentModeCriterion := by rfl
          simp only [CriterionInstance.serialize, reconstructInstance,
            criterion_instance, hcls]
          simp only [createInstance, enrollment_mode_dump_then_validate cfg,
            validate_operator_ok_value _ _ _ ho, hs]
  | UserStaffStatusCriterion =>
    simp only [createInstance] at h
    split at h
    next => cases h
    next cfg hv =>
      split at h
      next => cases h
      next o ho =>
        split at h
        next => cases h
        next u hs =>
          injection h with h
          subst h
          refine ⟨.user_staff_status o cfg scope, ?_, rfl⟩
          have hcls : get_criterion_class_by_type "user_staff_status"
              = some .UserStaffStatusCriterion := by rfl
          simp only [CriterionInstance.serialize, reconstructInstance,
            criterion_instance, hcls]
          simp only [createInstance, user_staff_dump_then_validate cfg,
            validate_operator_ok_value _ _ _ ho, hs]

/-- Witness for C9: a `last_login > 1 day` criterion round-trips through
serialization and evaluates identically. -/
theorem criterion_serialize_roundtrip_witness :
    ∃ i2, reconstructInstance
        (CriterionInstance.last_login .GREATER_THAN ⟨1⟩
          exampleScope).serialize exampleScope = .ok i2
      ∧ evaluateInstance i2 exampleBackend 0
          = evaluateInstance
            (.last_login .GREATER_THAN ⟨1⟩ exampleScope) exampleBackend 0 :=
  criterion_serialize_roundtrip .LastLoginCriterion ">"
    [("days", .vint 1)] exampleScope
    (.last_login .GREATER_THAN ⟨1⟩ exampleScope) exampleBackend 0 (by rfl)
